import Mathlib

/-!
Verification of the NodeFlow sequence execution engine
(`src/app/ui/sequencer_editor.py`, class `SequenceEngine`).

This file gives a shallow embedding of the engine's pure logic:
Python runtime values are modelled by `PyValue`, the per-run execution
context by functions `String → Option _`, raising operations
(`float(...)`, `int(...)`, `eval(...)`) by `Option`-returning functions,
and each engine method by a Lean function of the same name.  External
primitives whose exact behaviour is irrelevant to the properties proved
here (the Python `float`/`int` string parsers and the sandboxed
expression evaluator) are taken as parameters; `parseNum` below is a
concrete decimal parser used to instantiate them on concrete inputs.
-/

namespace NodeFlow

/-- A Python runtime value as used by the engine: booleans, ints, floats
(modelled as rationals), strings, and `None`. -/
inductive PyValue where
  | bool : Bool → PyValue
  | int : Int → PyValue
  | float : Rat → PyValue
  | str : String → PyValue
  | none : PyValue
deriving DecidableEq, Repr

/-- Numeric view of a Python value: Python treats `bool` as a numeric
type (`True == 1`), so `bool`, `int` and `float` all have one. -/
def pyToRat : PyValue → Option Rat
  | .bool b => some (if b then 1 else 0)
  | .int n => some (n : Rat)
  | .float q => some q
  | .str _ => Option.none
  | .none => Option.none

/-- Python `==`: numeric values compare numerically across types,
strings compare as strings, `None` equals only `None`; mismatched
kinds compare unequal (Python `==` never raises). -/
def pyEq (a b : PyValue) : Bool :=
  match pyToRat a, pyToRat b with
  | some x, some y => x == y
  | _, _ =>
    match a, b with
    | .str s, .str t => s == t
    | .none, .none => true
    | _, _ => false

/-- Python `<`: defined between two numerics or two strings; any other
pairing raises `TypeError`, modelled as `Option.none`. -/
def pyLt (a b : PyValue) : Option Bool :=
  match pyToRat a, pyToRat b with
  | some x, some y => some (decide (x < y))
  | _, _ =>
    match a, b with
    | .str s, .str t => some (decide (s < t))
    | _, _ => Option.none

/-- Python `>` (raises on mismatched kinds, modelled as `Option.none`). -/
def pyGt (a b : PyValue) : Option Bool :=
  match pyToRat a, pyToRat b with
  | some x, some y => some (decide (y < x))
  | _, _ =>
    match a, b with
    | .str s, .str t => some (decide (t < s))
    | _, _ => Option.none

/-- Python `<=` (raises on mismatched kinds, modelled as `Option.none`). -/
def pyLe (a b : PyValue) : Option Bool :=
  match pyToRat a, pyToRat b with
  | some x, some y => some (decide (x ≤ y))
  | _, _ =>
    match a, b with
    | .str s, .str t => some (decide (s ≤ t))
    | _, _ => Option.none

/-- Python `>=` (raises on mismatched kinds, modelled as `Option.none`). -/
def pyGe (a b : PyValue) : Option Bool :=
  match pyToRat a, pyToRat b with
  | some x, some y => some (decide (y ≤ x))
  | _, _ =>
    match a, b with
    | .str s, .str t => some (decide (t ≤ s))
    | _, _ => Option.none

/-- Python `bool(...)` truthiness coercion. -/
def pyTruthy : PyValue → Bool
  | .bool b => b
  | .int n => decide (n ≠ 0)
  | .float q => decide (q ≠ 0)
  | .str s => decide (s ≠ "")
  | .none => false

/-- Python `float(v)` for an arbitrary value: numerics convert, strings
go through the runtime's string parser (a parameter `pyFloat`), and
`None` raises (`Option.none`). -/
def pyFloatValue (pyFloat : String → Option Rat) : PyValue → Option Rat
  | .bool b => some (if b then 1 else 0)
  | .int n => some (n : Rat)
  | .float q => some q
  | .str s => pyFloat s
  | .none => Option.none

/-- Fold a list of decimal digit characters into a number; fails on a
non-digit. -/
def digitsVal (cs : List Char) : Option Nat :=
  cs.foldl
    (fun acc c =>
      match acc with
      | some a => if c.isDigit then some (a * 10 + (c.toNat - 48)) else Option.none
      | Option.none => Option.none)
    (some 0)

/-- A concrete decimal parser (optional sign, digits, optional fraction),
agreeing with Python's `float(...)` on every string it accepts and used
to instantiate the abstract parser parameters on concrete inputs. -/
def parseNum (s : String) : Option Rat :=
  let cs := s.toList
  let signed : Bool × List Char :=
    match cs with
    | '-' :: rest => (true, rest)
    | _ => (false, cs)
  let intPart := signed.2.takeWhile (·.isDigit)
  let rest := signed.2.dropWhile (·.isDigit)
  if intPart.isEmpty then Option.none
  else
    match digitsVal intPart with
    | Option.none => Option.none
    | some ip =>
      match rest with
      | [] => some (if signed.1 then -(ip : Rat) else (ip : Rat))
      | '.' :: frac =>
        match digitsVal frac with
        | Option.none => Option.none
        | some fp =>
          let q : Rat := (ip : Rat) + (fp : Rat) / ((10 : Rat) ^ frac.length)
          some (if signed.1 then -q else q)
      | _ => Option.none

/-- Debugger state, from the `DebugState` enum. -/
inductive DebugState where
  | IDLE
  | RUNNING
  | PAUSED
deriving DecidableEq, Repr

/-- An edge condition, from the condition dicts produced by the
condition dialog: either `{'type': 'expression', 'expression': s}`
(the text may be absent or empty) or a simple
`{'operator': op, 'value': v?}` comparison. -/
inductive Condition where
  | expression (text : Option String) : Condition
  | simple (operator : String) (value : Option String) : Condition
deriving DecidableEq, Repr

/-- The fields of a node's `config` dict that the engine reads, with
the defaults the code supplies via `.get`. -/
structure NodeConfig where
  node_type : String := ""
  label : String := ""
  has_argument : Bool := false
  use_connected_input : Bool := false
  argument_value : String := ""
  delay_seconds : Option PyValue := Option.none
  static_value : String := ""
  while_negate_condition : Bool := true
  while_condition_value : String := ""
deriving DecidableEq, Repr

/-- A node of a sequence graph. -/
structure Node where
  uuid : String
  config : NodeConfig := {}
  has_breakpoint : Bool := false
deriving DecidableEq, Repr

/-- An execution edge `(start, end, condition)`. -/
structure ExecConn where
  start_node_uuid : String
  end_node_uuid : String
  condition : Option Condition := Option.none
deriving DecidableEq, Repr

/-- A data edge `(start, end, end socket label)`.  (The per-connection
`uuid` the engine caches UI preview values under is irrelevant to the
engine's results and omitted.) -/
structure DataConn where
  start_node_uuid : String
  end_node_uuid : String
  end_socket_label : String := ""
deriving DecidableEq, Repr

/-- One named sequence: its nodes, execution edges and data edges. -/
structure SequenceData where
  nodes : List Node := []
  exec_connections : List ExecConn := []
  data_connections : List DataConn := []
deriving DecidableEq, Repr

/-- `{n['uuid']: n for n in nodes}` lookup: on duplicate uuids the
later entry wins, as in a Python dict comprehension. -/
def node_map_get (nodes : List Node) (uuid : String) : Option Node :=
  nodes.reverse.find? (fun n => n.uuid == uuid)

/-- The literal-coercion step shared verbatim by `evaluate_condition`
and `execute_while_loop_node`: coerce the configured literal string to
the produced value's runtime type; a failed `int(...)`/`float(...)`
conversion is caught and the raw string kept.  `pyInt` and `pyFloat`
are the runtime's string-to-number parsers (`Option.none` = raised). -/
def coerce_to_runtime_type (pyInt : String → Option Int) (pyFloat : String → Option Rat)
    (result : PyValue) (val_str : String) : PyValue :=
  match result with
  | .bool _ => .bool (["true", "1", "t"].contains val_str.toLower)
  | .int _ =>
    match pyInt val_str with
    | some n => .int n
    | Option.none => .str val_str
  | .float _ =>
    match pyFloat val_str with
    | some q => .float q
    | Option.none => .str val_str
  | _ => .str val_str

/-- `SequenceEngine.evaluate_condition`: decides whether an execution
edge's condition fires for a produced value.  `evalExpr` models the
sandboxed `eval(expression, ..., {'INPUT': result})` call
(`Option.none` = the evaluation raised). -/
def evaluate_condition (pyInt : String → Option Int) (pyFloat : String → Option Rat)
    (evalExpr : String → PyValue → Option PyValue)
    (connection_data : ExecConn) (result : PyValue) : Bool :=
  match connection_data.condition with
  | Option.none => true
  | some (Condition.expression text) =>
    match text with
    | Option.none => true
    | some expression =>
      if expression = "" then true
      else
        match evalExpr expression result with
        | some v => pyTruthy v
        | Option.none => false
  | some (Condition.simple op value) =>
    if op = "No Condition" then true
    else if op = "Loop Body" || op = "Finished" then pyEq result (PyValue.str op)
    else if op = "is True" then result == PyValue.bool true
    else if op = "is False" then result == PyValue.bool false
    else
      match value with
      | Option.none => false
      | some val_str =>
        let val := coerce_to_runtime_type pyInt pyFloat result val_str
        if op = "==" then pyEq result val
        else if op = "!=" then !(pyEq result val)
        else if op = ">" then (pyGt result val).getD false
        else if op = "<" then (pyLt result val).getD false
        else if op = ">=" then (pyGe result val).getD false
        else if op = "<=" then (pyLe result val).getD false
        else false

/-- `SequenceEngine.find_next_node_and_connection`: the first execution
edge (in edge-list order) leaving the current node whose condition
evaluates true, together with its target node id. -/
def find_next_node_and_connection (pyInt : String → Option Int) (pyFloat : String → Option Rat)
    (evalExpr : String → PyValue → Option PyValue)
    (current_node_data : Node) (result : PyValue) (sequence_data : SequenceData) :
    Option (String × ExecConn) :=
  (sequence_data.exec_connections.find?
    (fun conn_data => conn_data.start_node_uuid == current_node_data.uuid &&
      evaluate_condition pyInt pyFloat evalExpr conn_data result)).map
    (fun conn_data => (conn_data.end_node_uuid, conn_data))

/-- `SequenceEngine.find_start_node`: the first node that is the target
of no execution edge, or nothing. -/
def find_start_node (sequence_data : SequenceData) : Option Node :=
  match sequence_data.nodes with
  | [] => Option.none
  | _ =>
    let end_node_uuids := sequence_data.exec_connections.map (·.end_node_uuid)
    sequence_data.nodes.find? (fun node_data => !(end_node_uuids.contains node_data.uuid))

/-- Outcome of `SequenceEngine.resolve_argument_value`: a value, or one
of the two distinct `ValueError`s it raises. -/
inductive ResolveResult where
  | ok : PyValue → ResolveResult
  | errNotExecuted (source_node_uuid : String) : ResolveResult
  | errNoConnection : ResolveResult
deriving DecidableEq, Repr

/-- `SequenceEngine.resolve_argument_value`: unless the config has both
`has_argument` and `use_connected_input` set, return the literal
`argument_value` (float-parsed when possible, else the raw string);
otherwise look up the first data edge into this node and return the
source node's context value, raising if the source has not executed or
if no edge is connected. -/
def resolve_argument_value (pyFloat : String → Option Rat) (node_data : Node)
    (sequence_data : SequenceData) (execution_context : String → Option PyValue) :
    ResolveResult :=
  let node_config := node_data.config
  if !node_config.has_argument || !node_config.use_connected_input then
    match pyFloat node_config.argument_value with
    | some f => .ok (.float f)
    | Option.none => .ok (.str node_config.argument_value)
  else
    match sequence_data.data_connections.find?
        (fun conn => conn.end_node_uuid == node_data.uuid) with
    | some conn =>
      match execution_context conn.start_node_uuid with
      | some value => .ok value
      | Option.none => .errNotExecuted conn.start_node_uuid
    | Option.none => .errNoConnection

/-- A join-counter entry `{'arrivals': ..., 'expected': ...}` in the
execution context. -/
structure JoinCounter where
  arrivals : Nat
  expected : Nat
deriving DecidableEq, Repr

/-- The join-counter portion of the execution context. -/
def JoinCtx : Type := String → Option JoinCounter

/-- The number of execution edges whose target is the join node
(computed once, at first arrival). -/
def count_incoming (exec_connections : List ExecConn) (join_uuid : String) : Nat :=
  (exec_connections.filter (fun conn => conn.end_node_uuid == join_uuid)).length

/-- `SequenceEngine.execute_join_node`: on first arrival create the
counter with `arrivals = 1` and `expected` = number of incoming
execution edges, otherwise increment `arrivals`; if `arrivals <
expected` return the `WAITING_FOR_JOIN` sentinel with the counter
stored, else delete the counter and succeed. -/
def execute_join_node (execution_context : JoinCtx) (sequence_data : SequenceData)
    (join_uuid : String) : (PyValue × Bool) × JoinCtx :=
  let counter : JoinCounter :=
    match execution_context join_uuid with
    | Option.none =>
      { arrivals := 1, expected := count_incoming sequence_data.exec_connections join_uuid }
    | some prev => { prev with arrivals := prev.arrivals + 1 }
  let ctx1 : JoinCtx := fun k => if k = join_uuid then some counter else execution_context k
  if counter.arrivals < counter.expected then
    ((PyValue.str "WAITING_FOR_JOIN", false), ctx1)
  else
    ((PyValue.bool true, true), fun k => if k = join_uuid then Option.none else ctx1 k)

/-- The `k`-th sequential call (0-indexed) to `execute_join_node` for
one join node, starting from `execution_context`; returns the result of
that call and the context after it. -/
def join_call_seq (execution_context : JoinCtx) (sequence_data : SequenceData)
    (join_uuid : String) : Nat → (PyValue × Bool) × JoinCtx
  | 0 => execute_join_node execution_context sequence_data join_uuid
  | k + 1 =>
    execute_join_node (join_call_seq execution_context sequence_data join_uuid k).2
      sequence_data join_uuid

/-- How `_execute_graph` reacts to one node's `(value, success)` pair
(the code right after `execute_node`): a failed node whose value is the
`WAITING_FOR_JOIN` sentinel ends the branch walk with success, a
genuine failure ends it with failure, and a success proceeds to edge
evaluation with the produced value. -/
inductive WalkStep where
  | returnJoinWait : WalkStep
  | returnFailure : WalkStep
  | proceed : PyValue → WalkStep
deriving DecidableEq, Repr

/-- Lines 838–846 of `_execute_graph`. -/
def graph_step_on_result (value : PyValue) (success : Bool) : WalkStep :=
  if !success then
    if pyEq value (PyValue.str "WAITING_FOR_JOIN") then WalkStep.returnJoinWait
    else WalkStep.returnFailure
  else WalkStep.proceed value

/-- Effect of the breakpoint test at the top of one `_execute_graph`
iteration: the resulting debug state, whether the pause gate was
cleared, and whether an `execution_paused` event was emitted. -/
structure BreakpointCheck where
  debug_state : DebugState
  pause_event_cleared : Bool
  emitted_execution_paused : Bool
deriving DecidableEq, Repr

/-- Lines 817–821 of `_execute_graph`: pause only when the node has a
breakpoint, the run is not already suspended (the pause gate is set),
and we are not in a sub-sequence entered without step-into. -/
def breakpoint_check (has_breakpoint pause_event_is_set is_sub_sequence step_into : Bool)
    (debug_state : DebugState) : BreakpointCheck :=
  if has_breakpoint && pause_event_is_set then
    if !(is_sub_sequence && !step_into) then
      { debug_state := DebugState.PAUSED, pause_event_cleared := true,
        emitted_execution_paused := true }
    else
      { debug_state := debug_state, pause_event_cleared := false,
        emitted_execution_paused := false }
  else
    { debug_state := debug_state, pause_event_cleared := false,
      emitted_execution_paused := false }

/-- Observable outcome of `SequenceEngine.run` up to the point where a
walk is (or is not) submitted: the start node handed to the walker,
any `execution_finished` event emitted, and the debug state on return. -/
structure RunResult where
  started_walk : Option Node
  emitted_execution_finished : Option (String × Bool)
  debug_state : DebugState
deriving DecidableEq, Repr

/-- `SequenceEngine.run` (lines 726–757): a no-op unless Idle; unknown
sequence name → log and return (no event, still Idle); no start node →
emit `execution_finished(name, False)` and return (still Idle);
otherwise go Running and submit the walk at the start node. -/
def run (debug_state : DebugState) (sequence_name : String)
    (all_sequences : List (String × SequenceData)) : RunResult :=
  if debug_state ≠ DebugState.IDLE then
    { started_walk := Option.none, emitted_execution_finished := Option.none,
      debug_state := debug_state }
  else
    match (all_sequences.find? (fun p => p.1 == sequence_name)).map (·.2) with
    | Option.none =>
      { started_walk := Option.none, emitted_execution_finished := Option.none,
        debug_state := DebugState.IDLE }
    | some main_sequence_data =>
      match find_start_node main_sequence_data with
      | Option.none =>
        { started_walk := Option.none,
          emitted_execution_finished := some (sequence_name, false),
          debug_state := DebugState.IDLE }
      | some start_node =>
        { started_walk := some start_node, emitted_execution_finished := Option.none,
          debug_state := DebugState.RUNNING }

/-- `SequenceEngine.execute_delay_node`: `float(...)` the configured
`delay_seconds` (default `1.0`), sleep that long and succeed with
`True`; if the conversion raises, the `except` returns `(None, False)`.
The first component is the duration actually slept, if any. -/
def execute_delay_node (pyFloat : String → Option Rat) (delay_seconds : Option PyValue) :
    Option Rat × (PyValue × Bool) :=
  match pyFloatValue pyFloat (delay_seconds.getD (PyValue.float 1)) with
  | some delay_s => (some delay_s, (PyValue.bool true, true))
  | Option.none => (Option.none, (PyValue.none, false))

/-- The branch start nodes of a fork: targets of execution edges
leaving the fork node that exist in the node map. -/
def fork_branches (sequence_data : SequenceData) (fork_uuid : String) : List Node :=
  (sequence_data.exec_connections.filter
    (fun conn => conn.start_node_uuid == fork_uuid)).filterMap
    (fun conn => node_map_get sequence_data.nodes conn.end_node_uuid)

/-- `SequenceEngine.execute_fork_node`: with no branches, succeed
immediately spawning nothing; otherwise spawn one task per branch,
gather them (discarding their results) and succeed.  `branch_result`
is the walk outcome of each spawned branch; the second component is
the number of tasks spawned. -/
def execute_fork_node (sequence_data : SequenceData) (node_uuid : String)
    (branch_result : Node → PyValue × Bool) : (PyValue × Bool) × Nat :=
  let branches := fork_branches sequence_data node_uuid
  if branches.isEmpty then ((PyValue.bool true, true), 0)
  else
    let _results := branches.map branch_result
    ((PyValue.bool true, true), branches.length)

/-- The termination test of one `execute_while_loop_node` iteration
(lines 988–1003): coerce the configured literal to the live value's
runtime type, compare, and apply the `while_negate_condition`
polarity; `true` means the loop breaks before running the body. -/
def while_condition_breaks (pyInt : String → Option Int) (pyFloat : String → Option Rat)
    (negate_condition : Bool) (condition_target_str : String) (live_value : PyValue) : Bool :=
  let condition_target := coerce_to_runtime_type pyInt pyFloat live_value condition_target_str
  let is_match := pyEq live_value condition_target
  if negate_condition then is_match else !is_match

/-- The iteration loop of `execute_while_loop_node` (lines 977–1010).
`iteration_count` counts completed body iterations, `fuel` is
`max_iterations - iteration_count` (so the loop guard
`iteration_count < max_iterations` is `fuel > 0`); `source_exec k`
is the `(value, success)` pair from re-executing the condition's
data-source node before iteration `k`; the loop body's own walk result
is discarded by the code and not modelled. -/
def while_loop_go (pyInt : String → Option Int) (pyFloat : String → Option Rat)
    (negate_condition : Bool) (condition_target_str : String)
    (stop_requested : Nat → Bool) (source_exec : Nat → PyValue × Bool) :
    Nat → Nat → (PyValue × Bool) × Nat
  | iteration_count, 0 => ((PyValue.str "Finished", true), iteration_count)
  | iteration_count, fuel + 1 =>
    if stop_requested iteration_count then ((PyValue.str "Finished", true), iteration_count)
    else
      let live_value := (source_exec iteration_count).1
      let success := (source_exec iteration_count).2
      if !success then ((PyValue.none, false), iteration_count)
      else
        if while_condition_breaks pyInt pyFloat negate_condition condition_target_str
            live_value then
          ((PyValue.str "Finished", true), iteration_count)
        else
          while_loop_go pyInt pyFloat negate_condition condition_target_str stop_requested
            source_exec (iteration_count + 1) fuel

/-- `SequenceEngine.execute_while_loop_node`: result components are the
node's `(value, success)` pair, the number of loop iterations run, and
the number of times the loop body was actually walked (the body walk is
skipped silently when the body start node is missing from the node
map).  No `Loop Body` edge → immediately `Finished`; no data-input
connection, or its source node missing → failure; otherwise run the
capped loop (`max_iterations = 1000`). -/
def execute_while_loop_node (pyInt : String → Option Int) (pyFloat : String → Option Rat)
    (evalExpr : String → PyValue → Option PyValue)
    (sequence_data : SequenceData) (node_data : Node)
    (stop_requested : Nat → Bool) (source_exec : Nat → PyValue × Bool) :
    (PyValue × Bool) × Nat × Nat :=
  let negate_condition := node_data.config.while_negate_condition
  let condition_target_str := node_data.config.while_condition_value
  match find_next_node_and_connection pyInt pyFloat evalExpr node_data
      (PyValue.str "Loop Body") sequence_data with
  | Option.none => ((PyValue.str "Finished", true), 0, 0)
  | some loop_body =>
    match sequence_data.data_connections.find?
        (fun conn => conn.end_node_uuid == node_data.uuid) with
    | Option.none => ((PyValue.none, false), 0, 0)
    | some conn =>
      match node_map_get sequence_data.nodes conn.start_node_uuid with
      | Option.none => ((PyValue.none, false), 0, 0)
      | some _ =>
        let r := while_loop_go pyInt pyFloat negate_condition condition_target_str
          stop_requested source_exec 0 1000
        let body_present := (node_map_get sequence_data.nodes loop_body.1).isSome
        (r.1, r.2, if body_present then r.2 else 0)

/-- A concrete model of Python `int(...)` on strings (optional sign and
decimal digits), agreeing with the runtime parser on every string it
accepts; used to instantiate the abstract parser on concrete inputs. -/
def parseIntStr (s : String) : Option Int :=
  let cs := s.toList
  let signed : Bool × List Char :=
    match cs with
    | '-' :: rest => (true, rest)
    | _ => (false, cs)
  if signed.2.isEmpty then Option.none
  else
    match digitsVal signed.2 with
    | some n => some (if signed.1 then -(n : Int) else (n : Int))
    | Option.none => Option.none

/-- An expression evaluator that raises on every input (as Python's
`eval` does, e.g., on the empty string). -/
def evalExprNever : String → PyValue → Option PyValue := fun _ _ => Option.none

/-- An expression evaluator implementing only the expression `INPUT`,
which returns the bound produced value; everything else raises. -/
def evalExprInput : String → PyValue → Option PyValue :=
  fun e v => if e = "INPUT" then some v else Option.none

/-- Fixture: a fully cyclic one-node sequence (the node is its own
target), so it has no start node. -/
def seqCyclic : SequenceData :=
  { nodes := [{ uuid := "A" }],
    exec_connections := [{ start_node_uuid := "A", end_node_uuid := "A" }] }

/-- Fixture: a two-node linear sequence with start node `A`. -/
def seqAB : SequenceData :=
  { nodes := [{ uuid := "A" }, { uuid := "B" }],
    exec_connections := [{ start_node_uuid := "A", end_node_uuid := "B" }] }

/-- Fixture: a node configured to use its literal value
(`has_argument` unset) while a data edge feeds it. -/
def nodeT : Node := { uuid := "T", config := { argument_value := "lit" } }

/-- Fixture: sequence wiring a data edge from `S` into `T`. -/
def seqC3 : SequenceData :=
  { nodes := [{ uuid := "S" }, nodeT],
    data_connections := [{ start_node_uuid := "S", end_node_uuid := "T" }] }

/-- Fixture: an execution context in which node `S` has produced `7.0`. -/
def ctxC3 : String → Option PyValue :=
  fun s => if s = "S" then some (PyValue.float 7) else Option.none

/-- Fixture: an empty join-counter context. -/
def ctxEmptyJoin : JoinCtx := fun _ => Option.none

/-- Fixture: two branches `A` and `B` converging on join node `J`. -/
def seqJoin2 : SequenceData :=
  { nodes := [{ uuid := "A" }, { uuid := "B" }, { uuid := "J" }],
    exec_connections :=
      [{ start_node_uuid := "A", end_node_uuid := "J" },
       { start_node_uuid := "B", end_node_uuid := "J" }] }

/-- Fixture: a WhileLoop node comparing its data input against `3`
with the default negate polarity (loop while the input differs). -/
def nodeW : Node :=
  { uuid := "W",
    config := { while_negate_condition := true, while_condition_value := "3" } }

/-- Fixture: sequence for `nodeW`: a `Loop Body` edge `W → B` and a
condition data edge `S → W`. -/
def seqW : SequenceData :=
  { nodes := [{ uuid := "S" }, { uuid := "B" }, nodeW],
    exec_connections :=
      [{ start_node_uuid := "W", end_node_uuid := "B",
         condition := some (Condition.simple "Loop Body" Option.none) }],
    data_connections := [{ start_node_uuid := "S", end_node_uuid := "W" }] }

/-- Fixture: an edge `A → B` guarded by the simple condition `== 1`. -/
def connAB : ExecConn :=
  { start_node_uuid := "A", end_node_uuid := "B",
    condition := some (Condition.simple "==" (some "1")) }

/-- Fixture: an unconditioned edge `A → C`. -/
def connAC : ExecConn := { start_node_uuid := "A", end_node_uuid := "C" }

/-- Fixture: node `A` with two outgoing edges, the first conditional. -/
def seqC6 : SequenceData :=
  { nodes := [{ uuid := "A" }, { uuid := "B" }, { uuid := "C" }],
    exec_connections := [connAB, connAC] }

/-- C7: in a sub-sequence walk (`is_sub_sequence = true`) a breakpointed
node pauses the run and emits the pause event exactly when the step-into
flag is set (and the run is not already suspended, i.e., the pause gate
is set); with the flag clear (plain run or resume) it never pauses
there.  In a top-level walk (`is_sub_sequence = false`) a breakpointed
node pauses exactly when the run is not already suspended, regardless
of the step-into flag.  The debug state moves to `PAUSED` precisely in
those cases and is untouched otherwise. -/
theorem C7_breakpoint_subsequence_gating
    (has_breakpoint pause_event_is_set step_into : Bool) (debug_state : DebugState) :
    ((breakpoint_check has_breakpoint pause_event_is_set true step_into
        debug_state).emitted_execution_paused = (step_into && has_breakpoint && pause_event_is_set)) ∧
    ((breakpoint_check has_breakpoint pause_event_is_set false step_into
        debug_state).emitted_execution_paused = (has_breakpoint && pause_event_is_set)) ∧
    ((breakpoint_check has_breakpoint pause_event_is_set true step_into
        debug_state).debug_state =
      if step_into && has_breakpoint && pause_event_is_set then DebugState.PAUSED
      else debug_state) ∧
    ((breakpoint_check has_breakpoint pause_event_is_set false step_into
        debug_state).debug_state =
      if has_breakpoint && pause_event_is_set then DebugState.PAUSED else debug_state) := by
  cases has_breakpoint <;> cases pause_event_is_set <;> cases step_into <;>
    simp [breakpoint_check]

/-- C9: `execute_fork_node` succeeds unconditionally after awaiting its
branches — its result does not depend on the branch walks' outcomes
(so a failed branch does not fail the Fork) — and a Fork with no
outgoing execution edges succeeds immediately with no task spawned. -/
theorem C9_fork_discards_branch_results (sequence_data : SequenceData) (node_uuid : String)
    (branch_result other_branch_result : Node → PyValue × Bool) :
    ((execute_fork_node sequence_data node_uuid branch_result).1 = (PyValue.bool true, true)) ∧
    (execute_fork_node sequence_data node_uuid branch_result =
      execute_fork_node sequence_data node_uuid other_branch_result) ∧
    (sequence_data.exec_connections.filter
        (fun conn => conn.start_node_uuid == node_uuid) = [] →
      execute_fork_node sequence_data node_uuid branch_result = ((PyValue.bool true, true), 0)) := by
  refine ⟨?_, ?_, ?_⟩
  · unfold execute_fork_node
    by_cases h : (fork_branches sequence_data node_uuid).isEmpty <;> simp [h]
  · unfold execute_fork_node
    by_cases h : (fork_branches sequence_data node_uuid).isEmpty <;> simp [h]
  · intro h
    unfold execute_fork_node fork_branches
    simp [h]

/-- C9 witness: a fork node with no outgoing edges in `seqAB` succeeds
immediately with zero tasks. -/
theorem C9_fork_witness :
    execute_fork_node seqAB "B" (fun _ => (PyValue.none, false)) =
      ((PyValue.bool true, true), 0) :=
  (C9_fork_discards_branch_results seqAB "B" (fun _ => (PyValue.none, false))
    (fun _ => (PyValue.none, false))).2.2 (by decide)

/-- C10: calling `run` while Idle with a sequence name absent from
`all_sequences` logs and returns: no walk starts, no
`execution_finished` is emitted, and the debug state stays Idle —
unlike the no-start-node case, which does emit
`execution_finished(name, False)` (second conjunct). -/
theorem C10_run_unknown_sequence (sequence_name : String)
    (all_sequences : List (String × SequenceData))
    (h : all_sequences.find? (fun p => p.1 == sequence_name) = Option.none) :
    run DebugState.IDLE sequence_name all_sequences =
      { started_walk := Option.none, emitted_execution_finished := Option.none,
        debug_state := DebugState.IDLE } ∧
    ∀ sequence_data : SequenceData, find_start_node sequence_data = Option.none →
      run DebugState.IDLE sequence_name [(sequence_name, sequence_data)] =
        { started_walk := Option.none,
          emitted_execution_finished := some (sequence_name, false),
          debug_state := DebugState.IDLE } := by
  constructor
  · simp [run, h]
  · intro sequence_data hstart
    simp [run, hstart]

/-- C10 witness: running the unknown name `main` over an empty project
returns silently, while a fully cyclic sequence under that name emits
`execution_finished("main", False)`. -/
theorem C10_run_unknown_sequence_witness :
    run DebugState.IDLE "main" [] =
      { started_walk := Option.none, emitted_execution_finished := Option.none,
        debug_state := DebugState.IDLE } ∧
    run DebugState.IDLE "main" [("main", seqCyclic)] =
      { started_walk := Option.none,
        emitted_execution_finished := some ("main", false),
        debug_state := DebugState.IDLE } :=
  ⟨(C10_run_unknown_sequence "main" [] (by decide)).1,
   (C10_run_unknown_sequence "main" [] (by decide)).2 seqCyclic (by decide)⟩

/-- `find_start_node` is the first node that is not the target of any
execution edge (the empty-node-list early return coincides with
`find?` on `[]`). -/
theorem find_start_node_eq (sequence_data : SequenceData) :
    find_start_node sequence_data =
      sequence_data.nodes.find? (fun node_data =>
        !((sequence_data.exec_connections.map (·.end_node_uuid)).contains node_data.uuid)) := by
  unfold find_start_node
  cases h : sequence_data.nodes with
  | nil => simp [h]
  | cons a l => rfl

/-- C2: when the Idle engine is asked to run a sequence present in
`all_sequences` in which every node is the target of some execution
edge, `find_start_node` finds nothing and `run` fails immediately with
the structural no-start-node outcome: no walk starts,
`execution_finished(name, False)` is emitted, and the debug state stays
Idle.  Conversely, when some node has no incoming execution edge,
`find_start_node` returns such a node and `run` starts the walk there,
moving to Running. -/
theorem C2_no_start_node (sequence_name : String)
    (all_sequences : List (String × SequenceData)) (sequence_data : SequenceData)
    (hfind : (all_sequences.find? (fun p => p.1 == sequence_name)).map (·.2) =
      some sequence_data) :
    ((∀ node ∈ sequence_data.nodes,
        node.uuid ∈ sequence_data.exec_connections.map (·.end_node_uuid)) →
      find_start_node sequence_data = Option.none ∧
      run DebugState.IDLE sequence_name all_sequences =
        { started_walk := Option.none,
          emitted_execution_finished := some (sequence_name, false),
          debug_state := DebugState.IDLE }) ∧
    ((∃ node ∈ sequence_data.nodes,
        node.uuid ∉ sequence_data.exec_connections.map (·.end_node_uuid)) →
      ∃ start_node, find_start_node sequence_data = some start_node ∧
        start_node ∈ sequence_data.nodes ∧
        start_node.uuid ∉ sequence_data.exec_connections.map (·.end_node_uuid) ∧
        run DebugState.IDLE sequence_name all_sequences =
          { started_walk := some start_node, emitted_execution_finished := Option.none,
            debug_state := DebugState.RUNNING }) := by
  constructor
  · intro hall
    have hnone : find_start_node sequence_data = Option.none := by
      rw [find_start_node_eq]
      rw [List.find?_eq_none]
      intro node hmem
      simpa using hall node hmem
    refine ⟨hnone, ?_⟩
    simp [run, hfind, hnone]
  · intro hex
    have hsome : (sequence_data.nodes.find? (fun node_data =>
        !((sequence_data.exec_connections.map (·.end_node_uuid)).contains
          node_data.uuid))).isSome := by
      rw [List.find?_isSome]
      obtain ⟨node, hmem, hnot⟩ := hex
      exact ⟨node, hmem, by simpa using hnot⟩
    obtain ⟨start_node, hstart⟩ := Option.isSome_iff_exists.mp hsome
    have hstart' : find_start_node sequence_data = some start_node := by
      rw [find_start_node_eq]; exact hstart
    refine ⟨start_node, hstart', List.mem_of_find?_eq_some hstart, ?_, ?_⟩
    · have := List.find?_some hstart
      simpa using this
    · simp [run, hfind, hstart']

/-- C2 witness: the fully cyclic `seqCyclic` has no start node and its
run emits the structural failure, while `seqAB` starts at node `A` and
goes Running. -/
theorem C2_no_start_node_witness :
    (find_start_node seqCyclic = Option.none ∧
      run DebugState.IDLE "main" [("main", seqCyclic)] =
        { started_walk := Option.none,
          emitted_execution_finished := some ("main", false),
          debug_state := DebugState.IDLE }) ∧
    (∃ start_node, find_start_node seqAB = some start_node ∧
      start_node ∈ seqAB.nodes ∧
      start_node.uuid ∉ seqAB.exec_connections.map (·.end_node_uuid) ∧
      run DebugState.IDLE "run2" [("run2", seqAB)] =
        { started_walk := some start_node, emitted_execution_finished := Option.none,
          debug_state := DebugState.RUNNING }) :=
  ⟨(C2_no_start_node "main" [("main", seqCyclic)] seqCyclic (by decide)).1 (by decide),
   (C2_no_start_node "run2" [("run2", seqAB)] seqAB (by decide)).2
     ⟨{ uuid := "A" }, by decide, by decide⟩⟩

/-- C8 counterexample: a Delay node whose configured `delay_seconds` is
the string `abc` (the config bag is free-form) makes `float(...)` raise,
so the `except` path returns `(None, False)`: the node neither sleeps
nor succeeds, refuting "always succeeds with value true for every
configuration". -/
theorem C8_delay_counterexample :
    execute_delay_node parseNum (some (PyValue.str "abc")) =
      (Option.none, (PyValue.none, false)) ∧
    ((PyValue.none : PyValue), false) ≠ (PyValue.bool true, true) := by
  constructor
  · rfl
  · decide

/-- C8 (amended): `execute_delay_node` sleeps the configured duration
and succeeds with value `True` whenever `float(...)` of the configured
`delay_seconds` succeeds — in particular always when the field is
absent (sleeping the default `1.0`) or holds a number, as every
dialog-produced configuration does; when the conversion raises, the
node fails with `(None, False)` without sleeping. -/
theorem C8_delay_amended (pyFloat : String → Option Rat) (delay_seconds : Option PyValue) :
    (∀ d, pyFloatValue pyFloat (delay_seconds.getD (PyValue.float 1)) = some d →
      execute_delay_node pyFloat delay_seconds = (some d, (PyValue.bool true, true))) ∧
    (delay_seconds = Option.none →
      execute_delay_node pyFloat delay_seconds = (some 1, (PyValue.bool true, true))) ∧
    (∀ q, delay_seconds = some (PyValue.float q) →
      execute_delay_node pyFloat delay_seconds = (some q, (PyValue.bool true, true))) ∧
    (pyFloatValue pyFloat (delay_seconds.getD (PyValue.float 1)) = Option.none →
      execute_delay_node pyFloat delay_seconds = (Option.none, (PyValue.none, false))) := by
  refine ⟨?_, ?_, ?_, ?_⟩
  · intro d hd
    simp [execute_delay_node, hd]
  · intro h
    subst h
    simp [execute_delay_node, pyFloatValue]
  · intro q h
    subst h
    simp [execute_delay_node, pyFloatValue]
  · intro h
    simp [execute_delay_node, h]

/-- C8 witness: a Delay configured with `2.5` seconds sleeps `2.5` and
succeeds; one with no configured duration sleeps the default `1.0`. -/
theorem C8_delay_amended_witness :
    execute_delay_node parseNum (some (PyValue.float (5 / 2))) =
      (some (5 / 2), (PyValue.bool true, true)) ∧
    execute_delay_node parseNum Option.none = (some 1, (PyValue.bool true, true)) :=
  ⟨(C8_delay_amended parseNum (some (PyValue.float (5 / 2)))).2.2.1 (5 / 2) rfl,
   (C8_delay_amended parseNum Option.none).2.1 rfl⟩

/-- `List.find?` returns the head of the first satisfying suffix. -/
theorem find?_first_of_split {α : Type} (p : α → Bool) :
    ∀ (pre : List α) (a : α) (post : List α), (∀ c ∈ pre, p c = false) → p a = true →
      List.find? p (pre ++ a :: post) = some a := by
  intro pre
  induction pre with
  | nil =>
    intro a post _ ha
    simpa using List.find?_cons_of_pos _ ha
  | cons c cs ih =>
    intro a post hpre ha
    have hc : p c = false := hpre c (List.mem_cons_self _ _)
    rw [List.cons_append, List.find?_cons_of_neg _ (by simp [hc])]
    exact ih a post (fun x hx => hpre x (List.mem_cons_of_mem _ hx)) ha

/-- C6: `find_next_node_and_connection` is a pure function of the
current node, produced value and edge list (it is a Lean function of
exactly those arguments, so repeated calls agree by definition), and it
returns the target id of the first edge in edge-list order that leaves
the current node and whose condition evaluates true, or nothing when no
such edge exists. -/
theorem C6_find_next_first_match (pyInt : String → Option Int) (pyFloat : String → Option Rat)
    (evalExpr : String → PyValue → Option PyValue) (current_node_data : Node)
    (result : PyValue) (sequence_data : SequenceData) :
    ((∀ conn ∈ sequence_data.exec_connections,
        ¬(conn.start_node_uuid = current_node_data.uuid ∧
          evaluate_condition pyInt pyFloat evalExpr conn result = true)) →
      find_next_node_and_connection pyInt pyFloat evalExpr current_node_data result
        sequence_data = Option.none) ∧
    (∀ pre conn post,
      sequence_data.exec_connections = pre ++ conn :: post →
      (∀ c ∈ pre, ¬(c.start_node_uuid = current_node_data.uuid ∧
        evaluate_condition pyInt pyFloat evalExpr c result = true)) →
      conn.start_node_uuid = current_node_data.uuid →
      evaluate_condition pyInt pyFloat evalExpr conn result = true →
      find_next_node_and_connection pyInt pyFloat evalExpr current_node_data result
        sequence_data = some (conn.end_node_uuid, conn)) := by
  constructor
  · intro hall
    unfold find_next_node_and_connection
    rw [List.find?_eq_none.mpr]
    · rfl
    · intro conn hmem
      have := hall conn hmem
      simp only [not_and] at this
      by_cases hs : conn.start_node_uuid = current_node_data.uuid
      · simp [hs, this hs]
      · simp [hs]
  · intro pre conn post hsplit hpre hstart heval
    unfold find_next_node_and_connection
    rw [hsplit, find?_first_of_split _ pre conn post ?_ (by simp [hstart, heval])]
    · rfl
    · intro c hc
      have := hpre c hc
      simp only [not_and] at this
      by_cases hs : c.start_node_uuid = current_node_data.uuid
      · simp [hs, this hs]
      · simp [hs]

/-- C6 witness: with produced value `2.0`, the guarded edge `A → B`
(`== 1`) fails and the unconditioned edge `A → C` is chosen as the
first firing edge in list order. -/
theorem C6_find_next_first_match_witness :
    find_next_node_and_connection parseIntStr parseNum evalExprNever
      { uuid := "A" } (PyValue.float 2) seqC6 = some ("C", connAC) :=
  (C6_find_next_first_match parseIntStr parseNum evalExprNever
    { uuid := "A" } (PyValue.float 2) seqC6).2 [connAB] connAC []
    (by decide) (by decide) (by decide) (by decide)

/-- C3 counterexample: node `T` has a connected Data Edge from `S` and
`S` has produced `7.0` in the execution context, yet
`resolve_argument_value` returns the literal `"lit"` — the connected
value is not returned, because the data-edge path is gated on the
config flags `has_argument`/`use_connected_input` (here unset), not on
edge connectivity as the claim states. -/
theorem C3_resolve_counterexample :
    (seqC3.data_connections.find? (fun conn => conn.end_node_uuid == nodeT.uuid)).isSome =
      true ∧
    ctxC3 "S" = some (PyValue.float 7) ∧
    resolve_argument_value parseNum nodeT seqC3 ctxC3 = ResolveResult.ok (PyValue.str "lit") ∧
    ResolveResult.ok (PyValue.str "lit") ≠ ResolveResult.ok (PyValue.float 7) := by
  refine ⟨by decide, by decide, by decide, by decide⟩

/-- C3 (amended): argument resolution is gated on the node's config,
not on edge connectivity.  When the config does not have both
`has_argument` and `use_connected_input` set, the node's literal
`argument_value` is returned — float-parsed when possible, else the raw
string — regardless of any connected Data Edge.  When both flags are
set: with a connected Data Edge whose source has a value in the
Execution Context that value is returned; with a connected edge whose
source has not yet produced a value an explicit "has not executed"
error is raised (failing the node) rather than falling back to any
default; and with no connected edge a "none is found" error is raised
rather than falling back to the literal. -/
theorem C3_resolve_amended (pyFloat : String → Option Rat) (node_data : Node)
    (sequence_data : SequenceData) (execution_context : String → Option PyValue) :
    (((node_data.config.has_argument && node_data.config.use_connected_input) = false →
      (∀ f, pyFloat node_data.config.argument_value = some f →
        resolve_argument_value pyFloat node_data sequence_data execution_context =
          ResolveResult.ok (PyValue.float f)) ∧
      (pyFloat node_data.config.argument_value = Option.none →
        resolve_argument_value pyFloat node_data sequence_data execution_context =
          ResolveResult.ok (PyValue.str node_data.config.argument_value)))) ∧
    ((node_data.config.has_argument && node_data.config.use_connected_input) = true →
      (∀ conn, sequence_data.data_connections.find?
          (fun c => c.end_node_uuid == node_data.uuid) = some conn →
        (∀ value, execution_context conn.start_node_uuid = some value →
          resolve_argument_value pyFloat node_data sequence_data execution_context =
            ResolveResult.ok value) ∧
        (execution_context conn.start_node_uuid = Option.none →
          resolve_argument_value pyFloat node_data sequence_data execution_context =
            ResolveResult.errNotExecuted conn.start_node_uuid)) ∧
      (sequence_data.data_connections.find?
          (fun c => c.end_node_uuid == node_data.uuid) = Option.none →
        resolve_argument_value pyFloat node_data sequence_data execution_context =
          ResolveResult.errNoConnection)) := by
  constructor
  · intro hflags
    have hcond : (!node_data.config.has_argument || !node_data.config.use_connected_input) =
        true := by
      cases ha : node_data.config.has_argument <;>
        cases hu : node_data.config.use_connected_input <;> simp_all
    constructor
    · intro f hf
      simp [resolve_argument_value, hcond, hf]
    · intro hf
      simp [resolve_argument_value, hcond, hf]
  · intro hflags
    have hcond : (!node_data.config.has_argument || !node_data.config.use_connected_input) =
        false := by
      cases ha : node_data.config.has_argument <;>
        cases hu : node_data.config.use_connected_input <;> simp_all
    constructor
    · intro conn hconn
      constructor
      · intro value hvalue
        simp [resolve_argument_value, hcond, hconn, hvalue]
      · intro hvalue
        simp [resolve_argument_value, hcond, hconn, hvalue]
    · intro hconn
      simp [resolve_argument_value, hcond, hconn]

/-- C3 witness: the fixture node `T` (flags unset, literal `"lit"`)
resolves to the raw string since `float("lit")` raises; a flagged copy
of `T` resolves to the connected value `7.0` from `S`; a flagged copy
whose source has produced nothing raises the "has not executed" error;
and a flagged node with no edge raises the "none is found" error. -/
theorem C3_resolve_amended_witness :
    resolve_argument_value parseNum nodeT seqC3 ctxC3 = ResolveResult.ok (PyValue.str "lit") ∧
    resolve_argument_value parseNum
        { uuid := "T", config := { has_argument := true, use_connected_input := true } }
        seqC3 ctxC3 = ResolveResult.ok (PyValue.float 7) ∧
    resolve_argument_value parseNum
        { uuid := "T", config := { has_argument := true, use_connected_input := true } }
        seqC3 (fun _ => Option.none) = ResolveResult.errNotExecuted "S" ∧
    resolve_argument_value parseNum
        { uuid := "X", config := { has_argument := true, use_connected_input := true } }
        seqC3 ctxC3 = ResolveResult.errNoConnection :=
  ⟨((C3_resolve_amended parseNum nodeT seqC3 ctxC3).1 (by decide)).2 (by decide),
   (((C3_resolve_amended parseNum
       { uuid := "T", config := { has_argument := true, use_connected_input := true } }
       seqC3 ctxC3).2 (by decide)).1
     { start_node_uuid := "S", end_node_uuid := "T" } (by decide)).1
     (PyValue.float 7) (by decide),
   (((C3_resolve_amended parseNum
       { uuid := "T", config := { has_argument := true, use_connected_input := true } }
       seqC3 (fun _ => Option.none)).2 (by decide)).1
     { start_node_uuid := "S", end_node_uuid := "T" } (by decide)).2 rfl,
   ((C3_resolve_amended parseNum
       { uuid := "X", config := { has_argument := true, use_connected_input := true } }
       seqC3 ctxC3).2 (by decide)).2 (by decide)⟩

/-- C5 counterexample: a storable expression condition whose expression
text is the empty string (the condition dialog performs no validation).
Evaluating the empty string raises in Python — the evaluator here
raises on every input — so the claimed fail-safe would return false,
but `evaluate_condition` returns true: it short-circuits on empty text
before consulting the evaluator. -/
theorem C5_condition_counterexample :
    evalExprNever "" (PyValue.bool true) = Option.none ∧
    evaluate_condition parseIntStr parseNum evalExprNever
      { start_node_uuid := "a", end_node_uuid := "b",
        condition := some (Condition.expression (some "")) } (PyValue.bool true) = true := by
  exact ⟨rfl, by decide⟩

/-- C5 (amended): `evaluate_condition` is total by construction (every
raising operation — expression evaluation, literal coercion, ordered
comparison — is modelled as an `Option` the code catches) and fail-safe,
with one carve-out the counterexample forces: an expression condition
whose text is missing **or empty** is treated as unconditioned and
returns true without consulting the evaluator.  Otherwise, exactly as
claimed: no condition → true; a nonempty expression is evaluated with
the single bound variable holding the produced value, a non-boolean
result is coerced to boolean, and a raising evaluation yields false;
a simple condition special-cases `is True`/`is False` by identity
against booleans, matches the loop sentinels `Loop Body`/`Finished` by
label, and otherwise type-coerces the edge literal to the produced
value's runtime type and applies the requested operator, yielding false
for a missing literal, an unsupported operator, or an ordered
comparison that raises on mismatched types. -/
theorem C5_condition_amended (pyInt : String → Option Int) (pyFloat : String → Option Rat)
    (evalExpr : String → PyValue → Option PyValue) (conn : ExecConn) (result : PyValue) :
    (conn.condition = Option.none →
      evaluate_condition pyInt pyFloat evalExpr conn result = true) ∧
    (∀ e, conn.condition = some (Condition.expression e) →
      (e = Option.none ∨ e = some "") →
      evaluate_condition pyInt pyFloat evalExpr conn result = true) ∧
    (∀ expression, conn.condition = some (Condition.expression (some expression)) →
      expression ≠ "" →
      (evalExpr expression result = Option.none →
        evaluate_condition pyInt pyFloat evalExpr conn result = false) ∧
      (∀ v, evalExpr expression result = some v →
        evaluate_condition pyInt pyFloat evalExpr conn result = pyTruthy v)) ∧
    (∀ value, conn.condition = some (Condition.simple "No Condition" value) →
      evaluate_condition pyInt pyFloat evalExpr conn result = true) ∧
    (∀ op value, conn.condition = some (Condition.simple op value) →
      (op = "Loop Body" ∨ op = "Finished") →
      evaluate_condition pyInt pyFloat evalExpr conn result = pyEq result (PyValue.str op)) ∧
    (∀ value, conn.condition = some (Condition.simple "is True" value) →
      evaluate_condition pyInt pyFloat evalExpr conn result =
        (result == PyValue.bool true)) ∧
    (∀ value, conn.condition = some (Condition.simple "is False" value) →
      evaluate_condition pyInt pyFloat evalExpr conn result =
        (result == PyValue.bool false)) ∧
    (∀ op, conn.condition = some (Condition.simple op Option.none) →
      op ∉ ["No Condition", "Loop Body", "Finished", "is True", "is False"] →
      evaluate_condition pyInt pyFloat evalExpr conn result = false) ∧
    (∀ val_str, conn.condition = some (Condition.simple "==" (some val_str)) →
      evaluate_condition pyInt pyFloat evalExpr conn result =
        pyEq result (coerce_to_runtime_type pyInt pyFloat result val_str)) ∧
    (∀ val_str, conn.condition = some (Condition.simple "!=" (some val_str)) →
      evaluate_condition pyInt pyFloat evalExpr conn result =
        !(pyEq result (coerce_to_runtime_type pyInt pyFloat result val_str))) ∧
    (∀ val_str, conn.condition = some (Condition.simple ">" (some val_str)) →
      evaluate_condition pyInt pyFloat evalExpr conn result =
        (pyGt result (coerce_to_runtime_type pyInt pyFloat result val_str)).getD false) ∧
    (∀ val_str, conn.condition = some (Condition.simple "<" (some val_str)) →
      evaluate_condition pyInt pyFloat evalExpr conn result =
        (pyLt result (coerce_to_runtime_type pyInt pyFloat result val_str)).getD false) ∧
    (∀ val_str, conn.condition = some (Condition.simple ">=" (some val_str)) →
      evaluate_condition pyInt pyFloat evalExpr conn result =
        (pyGe result (coerce_to_runtime_type pyInt pyFloat result val_str)).getD false) ∧
    (∀ val_str, conn.condition = some (Condition.simple "<=" (some val_str)) →
      evaluate_condition pyInt pyFloat evalExpr conn result =
        (pyLe result (coerce_to_runtime_type pyInt pyFloat result val_str)).getD false) ∧
    (∀ op val_str, conn.condition = some (Condition.simple op (some val_str)) →
      op ∉ ["No Condition", "Loop Body", "Finished", "is True", "is False",
            "==", "!=", ">", "<", ">=", "<="] →
      evaluate_condition pyInt pyFloat evalExpr conn result = false) ∧
    (∀ val_str, conn.condition = some (Condition.simple "<" (some val_str)) →
      pyLt result (coerce_to_runtime_type pyInt pyFloat result val_str) = Option.none →
      evaluate_condition pyInt pyFloat evalExpr conn result = false) := by
  refine ⟨?_, ?_, ?_, ?_, ?_, ?_, ?_, ?_, ?_, ?_, ?_, ?_, ?_, ?_, ?_, ?_⟩
  · intro h
    simp [evaluate_condition, h]
  · intro e h he
    rcases he with he | he <;> subst he <;> simp [evaluate_condition, h]
  · intro expression h hne
    constructor
    · intro hev
      simp [evaluate_condition, h, hne, hev]
    · intro v hev
      simp [evaluate_condition, h, hne, hev]
  · intro value h
    simp [evaluate_condition, h]
  · intro op value h hop
    rcases hop with hop | hop <;> subst hop <;> simp [evaluate_condition, h]
  · intro value h
    simp [evaluate_condition, h]
  · intro value h
    simp [evaluate_condition, h]
  · intro op h hop
    simp only [List.mem_cons, List.not_mem_nil, or_false, not_or] at hop
    obtain ⟨h1, h2, h3, h4, h5⟩ := hop
    simp [evaluate_condition, h, h1, h2, h3, h4, h5]
  · intro val_str h
    simp [evaluate_condition, h]
  · intro val_str h
    simp [evaluate_condition, h]
  · intro val_str h
    simp [evaluate_condition, h]
  · intro val_str h
    simp [evaluate_condition, h]
  · intro val_str h
    simp [evaluate_condition, h]
  · intro val_str h
    simp [evaluate_condition, h]
  · intro op val_str h hop
    simp only [List.mem_cons, List.not_mem_nil, or_false, not_or] at hop
    obtain ⟨h1, h2, h3, h4, h5, h6, h7, h8, h9, h10, h11⟩ := hop
    simp [evaluate_condition, h, h1, h2, h3, h4, h5, h6, h7, h8, h9, h10, h11]
  · intro val_str h hmm
    simp [evaluate_condition, h, hmm]

/-- C5 witness: concrete evaluations exercising the amended cases — an
unconditioned edge fires; an empty expression fires without consulting
the (raising) evaluator; a raising nonempty expression is false; the
expression `INPUT` on a zero value coerces to false; the `Loop Body`
sentinel matches by label; `< 10` holds for `2.0`; an unsupported
operator is false; and `<` against `None` (a raising comparison) is
false. -/
theorem C5_condition_amended_witness :
    evaluate_condition parseIntStr parseNum evalExprNever connAC (PyValue.float 1) = true ∧
    evaluate_condition parseIntStr parseNum evalExprNever
      { start_node_uuid := "a", end_node_uuid := "b",
        condition := some (Condition.expression (some "")) } (PyValue.float 1) = true ∧
    evaluate_condition parseIntStr parseNum evalExprNever
      { start_node_uuid := "a", end_node_uuid := "b",
        condition := some (Condition.expression (some "INPUT")) } (PyValue.float 1) = false ∧
    evaluate_condition parseIntStr parseNum evalExprInput
      { start_node_uuid := "a", end_node_uuid := "b",
        condition := some (Condition.expression (some "INPUT")) } (PyValue.float 0) = false ∧
    evaluate_condition parseIntStr parseNum evalExprNever
      { start_node_uuid := "a", end_node_uuid := "b",
        condition := some (Condition.simple "Loop Body" Option.none) }
      (PyValue.str "Loop Body") = true ∧
    evaluate_condition parseIntStr parseNum evalExprNever
      { start_node_uuid := "a", end_node_uuid := "b",
        condition := some (Condition.simple "<" (some "10")) } (PyValue.float 2) = true ∧
    evaluate_condition parseIntStr parseNum evalExprNever
      { start_node_uuid := "a", end_node_uuid := "b",
        condition := some (Condition.simple "~=" (some "1")) } (PyValue.float 2) = false ∧
    evaluate_condition parseIntStr parseNum evalExprNever
      { start_node_uuid := "a", end_node_uuid := "b",
        condition := some (Condition.simple "<" (some "1")) } PyValue.none = false := by
  refine ⟨?_, ?_, ?_, ?_, ?_, ?_, ?_, ?_⟩
  · exact (C5_condition_amended parseIntStr parseNum evalExprNever connAC
      (PyValue.float 1)).1 rfl
  · obtain ⟨-, c2, -⟩ := C5_condition_amended parseIntStr parseNum evalExprNever
      { start_node_uuid := "a", end_node_uuid := "b",
        condition := some (Condition.expression (some "")) } (PyValue.float 1)
    exact c2 (some "") rfl (Or.inr rfl)
  · obtain ⟨-, -, c3, -⟩ := C5_condition_amended parseIntStr parseNum evalExprNever
      { start_node_uuid := "a", end_node_uuid := "b",
        condition := some (Condition.expression (some "INPUT")) } (PyValue.float 1)
    exact (c3 "INPUT" rfl (by decide)).1 rfl
  · obtain ⟨-, -, c3, -⟩ := C5_condition_amended parseIntStr parseNum evalExprInput
      { start_node_uuid := "a", end_node_uuid := "b",
        condition := some (Condition.expression (some "INPUT")) } (PyValue.float 0)
    exact ((c3 "INPUT" rfl (by decide)).2 (PyValue.float 0) rfl).trans (by decide)
  · obtain ⟨-, -, -, -, c5, -⟩ := C5_condition_amended parseIntStr parseNum evalExprNever
      { start_node_uuid := "a", end_node_uuid := "b",
        condition := some (Condition.simple "Loop Body" Option.none) }
      (PyValue.str "Loop Body")
    exact (c5 "Loop Body" Option.none rfl (Or.inl rfl)).trans (by decide)
  · obtain ⟨-, -, -, -, -, -, -, -, -, -, -, c12, -⟩ :=
      C5_condition_amended parseIntStr parseNum evalExprNever
        { start_node_uuid := "a", end_node_uuid := "b",
          condition := some (Condition.simple "<" (some "10")) } (PyValue.float 2)
    exact (c12 "10" rfl).trans (by decide)
  · obtain ⟨-, -, -, -, -, -, -, -, -, -, -, -, -, -, c15, -⟩ :=
      C5_condition_amended parseIntStr parseNum evalExprNever
        { start_node_uuid := "a", end_node_uuid := "b",
          condition := some (Condition.simple "~=" (some "1")) } (PyValue.float 2)
    exact c15 "~=" "1" rfl (by decide)
  · obtain ⟨-, -, -, -, -, -, -, -, -, -, -, -, -, -, -, c16⟩ :=
      C5_condition_amended parseIntStr parseNum evalExprNever
        { start_node_uuid := "a", end_node_uuid := "b",
          condition := some (Condition.simple "<" (some "1")) } PyValue.none
    exact c16 "1" rfl (by decide)

/-- When stop is never requested, the condition source always succeeds,
and the termination test never fires, the while loop consumes all its
fuel, adding `fuel` iterations before returning `Finished`. -/
theorem while_loop_go_no_break (pyInt : String → Option Int) (pyFloat : String → Option Rat)
    (negate_condition : Bool) (condition_target_str : String)
    (stop_requested : Nat → Bool) (source_exec : Nat → PyValue × Bool)
    (hstop : ∀ k, stop_requested k = false)
    (hsuccess : ∀ k, (source_exec k).2 = true)
    (hnb : ∀ k, while_condition_breaks pyInt pyFloat negate_condition condition_target_str
      (source_exec k).1 = false) :
    ∀ fuel iteration_count,
      while_loop_go pyInt pyFloat negate_condition condition_target_str stop_requested
        source_exec iteration_count fuel =
        ((PyValue.str "Finished", true), iteration_count + fuel) := by
  intro fuel
  induction fuel with
  | zero => intro n; simp [while_loop_go]
  | succ m ih =>
    intro n
    rw [while_loop_go]
    simp only [hstop n, hsuccess n, hnb n, Bool.not_true, Bool.false_eq_true, if_false,
      ih (n + 1)]
    exact congrArg (fun t => ((PyValue.str "Finished", true), t)) (by omega)

/-- C4: for a WhileLoop node with a connected `Loop Body` edge (whose
target exists in the node map) and a connected condition data source,
when stop is never requested and every re-execution of the source node
succeeds: if the type-coerced, polarity-adjusted condition never
signals termination, the loop runs exactly 1000 iterations, walking the
loop body exactly 1000 times — the condition source is re-executed
freshly before each iteration, as `source_exec` is indexed by the
iteration counter — and then returns `("Finished", success)`; if the
condition signals termination on the very first check, the body is
walked zero times and the node returns `("Finished", success)`
directly. -/
theorem C4_while_loop_cap (pyInt : String → Option Int) (pyFloat : String → Option Rat)
    (evalExpr : String → PyValue → Option PyValue)
    (sequence_data : SequenceData) (node_data : Node)
    (stop_requested : Nat → Bool) (source_exec : Nat → PyValue × Bool)
    (loop_body : String × ExecConn) (conn : DataConn) (src_node : Node)
    (hlb : find_next_node_and_connection pyInt pyFloat evalExpr node_data
      (PyValue.str "Loop Body") sequence_data = some loop_body)
    (hbody : (node_map_get sequence_data.nodes loop_body.1).isSome = true)
    (hconn : sequence_data.data_connections.find?
      (fun c => c.end_node_uuid == node_data.uuid) = some conn)
    (hsrc : node_map_get sequence_data.nodes conn.start_node_uuid = some src_node)
    (hstop : ∀ k, stop_requested k = false)
    (hsuccess : ∀ k, (source_exec k).2 = true) :
    ((∀ k, while_condition_breaks pyInt pyFloat node_data.config.while_negate_condition
        node_data.config.while_condition_value (source_exec k).1 = false) →
      execute_while_loop_node pyInt pyFloat evalExpr sequence_data node_data
        stop_requested source_exec = ((PyValue.str "Finished", true), 1000, 1000)) ∧
    (while_condition_breaks pyInt pyFloat node_data.config.while_negate_condition
        node_data.config.while_condition_value (source_exec 0).1 = true →
      execute_while_loop_node pyInt pyFloat evalExpr sequence_data node_data
        stop_requested source_exec = ((PyValue.str "Finished", true), 0, 0)) := by
  constructor
  · intro hnb
    unfold execute_while_loop_node
    simp only [hlb, hconn, hsrc]
    rw [while_loop_go_no_break pyInt pyFloat _ _ _ _ hstop hsuccess hnb 1000 0]
    simp [hbody]
  · intro hbreak
    unfold execute_while_loop_node
    simp only [hlb, hconn, hsrc]
    rw [show (1000 : Nat) = 999 + 1 from rfl, while_loop_go]
    simp [hstop 0, hsuccess 0, hbreak]

/-- C4 witness: the fixture WhileLoop `nodeW` (loop while input ≠ 3)
fed a source that always produces `5.0` runs exactly 1000 body
iterations then finishes; fed a source that produces `3.0` it finishes
with zero iterations. -/
theorem C4_while_loop_cap_witness :
    execute_while_loop_node parseIntStr parseNum evalExprNever seqW nodeW (fun _ => false)
      (fun _ => (PyValue.float 5, true)) = ((PyValue.str "Finished", true), 1000, 1000) ∧
    execute_while_loop_node parseIntStr parseNum evalExprNever seqW nodeW (fun _ => false)
      (fun _ => (PyValue.float 3, true)) = ((PyValue.str "Finished", true), 0, 0) :=
  ⟨(C4_while_loop_cap parseIntStr parseNum evalExprNever seqW nodeW (fun _ => false)
      (fun _ => (PyValue.float 5, true))
      ("B", { start_node_uuid := "W", end_node_uuid := "B",
              condition := some (Condition.simple "Loop Body" Option.none) })
      { start_node_uuid := "S", end_node_uuid := "W" } { uuid := "S" }
      (by decide) (by decide) (by decide) (by decide)
      (fun _ => rfl) (fun _ => rfl)).1 (fun _ => rfl),
   (C4_while_loop_cap parseIntStr parseNum evalExprNever seqW nodeW (fun _ => false)
      (fun _ => (PyValue.float 3, true))
      ("B", { start_node_uuid := "W", end_node_uuid := "B",
              condition := some (Condition.simple "Loop Body" Option.none) })
      { start_node_uuid := "S", end_node_uuid := "W" } { uuid := "S" }
      (by decide) (by decide) (by decide) (by decide)
      (fun _ => rfl) (fun _ => rfl)).2 (by decide)⟩

/-- Invariant of sequential arrivals at one join node, starting from a
context with no counter entry for it: after the `k`-th call (0-indexed,
`k + 1 ≤ N` where `N` is the incoming-edge count), the call returned
the waiting sentinel if more arrivals are expected (`k + 1 < N`), the
counter entry holds `arrivals = k + 1, expected = N` exactly while
`k + 1 < N` (and is deleted otherwise), and the final call
(`k + 1 = N`) returned success. -/
theorem join_call_seq_spec (execution_context : JoinCtx) (sequence_data : SequenceData)
    (join_uuid : String) (N : Nat)
    (hnone : execution_context join_uuid = Option.none)
    (hN : count_incoming sequence_data.exec_connections join_uuid = N) :
    ∀ k, k + 1 ≤ N →
      ((k + 1 < N →
        (join_call_seq execution_context sequence_data join_uuid k).1 =
          (PyValue.str "WAITING_FOR_JOIN", false)) ∧
       ((join_call_seq execution_context sequence_data join_uuid k).2 join_uuid =
         if k + 1 < N then some { arrivals := k + 1, expected := N } else Option.none) ∧
       (k + 1 = N →
        (join_call_seq execution_context sequence_data join_uuid k).1 =
          (PyValue.bool true, true))) := by
  intro k
  induction k with
  | zero =>
    intro h1
    by_cases hlt : 0 + 1 < N
    · refine ⟨fun _ => ?_, ?_, fun heq => ?_⟩
      · simp [join_call_seq, execute_join_node, hnone, hN, hlt]
      · simp [join_call_seq, execute_join_node, hnone, hN, hlt]
      · omega
    · refine ⟨fun hcon => absurd hcon hlt, ?_, fun _ => ?_⟩
      · simp [join_call_seq, execute_join_node, hnone, hN, hlt]
      · simp [join_call_seq, execute_join_node, hnone, hN, hlt]
  | succ k ih =>
    intro hk1
    have hklt : k + 1 < N := by omega
    have h2 := (ih (by omega)).2.1
    rw [if_pos hklt] at h2
    by_cases hlt : k + 1 + 1 < N
    · refine ⟨fun _ => ?_, ?_, fun heq => ?_⟩
      · simp [join_call_seq, execute_join_node, h2, hlt]
      · simp [join_call_seq, execute_join_node, h2, hlt]
      · omega
    · refine ⟨fun hcon => absurd hcon hlt, ?_, fun _ => ?_⟩
      · simp [join_call_seq, execute_join_node, h2, hlt]
      · simp [join_call_seq, execute_join_node, h2, hlt]

/-- C1: for a Join node with `N ≥ 1` incoming execution edges, under
the sequential arrival order of one run starting with no counter entry:
the first call creates the entry with `expected = N` (the incoming-edge
count at first-arrival time) and `arrivals = 1` (the entry survives the
call exactly when more arrivals are expected; for `N = 1` the first
arrival is also the last and deletes it); every call observing
`arrivals < expected` returns the waiting-for-join sentinel — which the
Walker's `graph_step_on_result` converts into an immediately successful
end of that branch's walk — while the counter entry survives with
`arrivals` equal to the number of arrivals so far; and exactly the
`N`-th arrival observes `arrivals == expected`, deletes the entry from
the Execution Context, and returns success, so exactly one branch
continues past the Join. -/
theorem C1_join_barrier (execution_context : JoinCtx) (sequence_data : SequenceData)
    (join_uuid : String) (N : Nat)
    (hnone : execution_context join_uuid = Option.none)
    (hN : count_incoming sequence_data.exec_connections join_uuid = N)
    (hpos : 1 ≤ N) :
    ((join_call_seq execution_context sequence_data join_uuid 0).2 join_uuid =
      if 1 < N then some { arrivals := 1, expected := N } else Option.none) ∧
    (∀ k, k + 1 < N →
      (join_call_seq execution_context sequence_data join_uuid k).1 =
        (PyValue.str "WAITING_FOR_JOIN", false) ∧
      graph_step_on_result
        (join_call_seq execution_context sequence_data join_uuid k).1.1
        (join_call_seq execution_context sequence_data join_uuid k).1.2 =
        WalkStep.returnJoinWait ∧
      (join_call_seq execution_context sequence_data join_uuid k).2 join_uuid =
        some { arrivals := k + 1, expected := N }) ∧
    ((join_call_seq execution_context sequence_data join_uuid (N - 1)).1 =
      (PyValue.bool true, true) ∧
     (join_call_seq execution_context sequence_data join_uuid (N - 1)).2 join_uuid =
       Option.none) := by
  have spec := join_call_seq_spec execution_context sequence_data join_uuid N hnone hN
  refine ⟨(spec 0 hpos).2.1, ?_, ?_, ?_⟩
  · intro k hk
    have hwait := (spec k (Nat.le_of_lt hk)).1 hk
    refine ⟨hwait, ?_, ?_⟩
    · rw [hwait]
      decide
    · rw [(spec k (Nat.le_of_lt hk)).2.1, if_pos hk]
  · exact (spec (N - 1) (by omega)).2.2 (by omega)
  · rw [(spec (N - 1) (by omega)).2.1, if_neg (by omega)]

/-- C1 witness: two branches joining at `J` in `seqJoin2`
(`expected = 2`): the first sequential arrival stores
`arrivals = 1, expected = 2` and returns the waiting sentinel, which
the Walker turns into a successful branch end; the second arrival
returns success and deletes the entry. -/
theorem C1_join_barrier_witness :
    (join_call_seq ctxEmptyJoin seqJoin2 "J" 0).2 "J" =
      some { arrivals := 1, expected := 2 } ∧
    (join_call_seq ctxEmptyJoin seqJoin2 "J" 0).1 =
      (PyValue.str "WAITING_FOR_JOIN", false) ∧
    graph_step_on_result (join_call_seq ctxEmptyJoin seqJoin2 "J" 0).1.1
      (join_call_seq ctxEmptyJoin seqJoin2 "J" 0).1.2 = WalkStep.returnJoinWait ∧
    (join_call_seq ctxEmptyJoin seqJoin2 "J" 1).1 = (PyValue.bool true, true) ∧
    (join_call_seq ctxEmptyJoin seqJoin2 "J" 1).2 "J" = Option.none := by
  have t := C1_join_barrier ctxEmptyJoin seqJoin2 "J" 2 rfl (by decide) (by decide)
  have hw := t.2.1 0 (by decide)
  exact ⟨t.1.trans (by decide), hw.1, hw.2.1, t.2.2.1, t.2.2.2⟩

end NodeFlow
